import Mathlib

/-!
Shallow embedding of the component lifecycle engine of the repository
(src/component_engine.js).  The first part embeds the `ComponentEngine` and
`Component` prototypes; the second part embeds the alternate `Application`
variant found at the end of the same file.  Callbacks (guard, init, remove,
action callbacks, event listeners) are opaque in the source, so the model
represents a guard by the boolean it returns for the engine at hand, and
represents callback invocations by trace events carrying the identifier of
the invoked callback; no callback mutates engine state in the model, which
matches every configuration the claims quantify over.
-/

/-- Trace of observable callback invocations performed by an engine
operation: an init lifecycle callback, a remove lifecycle callback, or an
event listener invoked with a data value. -/
inductive Ev where
  | initCb (nm : String)
  | removeCb (nm : String)
  | listen (lid : Nat) (data : Nat)
deriving DecidableEq, Repr

/-- An event-bus listener: an opaque callback identifier plus the
`listener.component` tag that `Component.prototype.addEventListener` writes
onto the callback object (`none` when the listener was registered directly
on the engine and the property is undefined).  Components of one engine have
distinct names, so the tag stands in for the object reference compared by
`listeners[i].component === component`. -/
structure Listener where
  lid : Nat
  comp : Option String
deriving DecidableEq, Repr

/-- A component of the first engine variant.  Fields mirror the constructor
`Component(name, options)`: `guardB` is the boolean the guard returns for
the owning engine, `actions` is the plain object mapping action names to
arrays of callback identifiers, `elements` records the matched-element
handle (`this.elements`) as the number of elements it matched, `engineSet`
records whether `this.engine` is set, `parent` the name of the parent
component, and `subcomponents` the declared children in order. -/
inductive Component : Type where
  | mk (name : String) (selector : Option String) (guardB : Bool)
       (actions : List (String × List Nat))
       (enabled : Bool) (elements : Option Nat)
       (engineSet : Bool) (parent : Option String)
       (subcomponents : List Component) : Component

def Component.name : Component → String
  | .mk n _ _ _ _ _ _ _ _ => n

def Component.selector : Component → Option String
  | .mk _ s _ _ _ _ _ _ _ => s

def Component.guardB : Component → Bool
  | .mk _ _ g _ _ _ _ _ _ => g

def Component.actions : Component → List (String × List Nat)
  | .mk _ _ _ a _ _ _ _ _ => a

def Component.enabled : Component → Bool
  | .mk _ _ _ _ en _ _ _ _ => en

def Component.elements : Component → Option Nat
  | .mk _ _ _ _ _ el _ _ _ => el

def Component.engineSet : Component → Bool
  | .mk _ _ _ _ _ _ eng _ _ => eng

def Component.parent : Component → Option String
  | .mk _ _ _ _ _ _ _ p _ => p

def Component.subcomponents : Component → List Component
  | .mk _ _ _ _ _ _ _ _ subs => subs

/-- The engine state: `components` is the insertion-ordered object mapping
component names to components, `eventListeners` maps event names to ordered
listener arrays, and `deferredEvents` is the FIFO queue of events dispatched
before initialization, each an event name with its data value. -/
structure Engine where
  components : List (String × Component)
  eventListeners : List (String × List Listener)
  initialized : Bool
  deferredEvents : List (String × Nat)

/-- JS truthiness of the `selector` field as tested by
`component.selector ? ... : ...` and by `if (!this.selector)`: undefined and
the empty string are falsy, every other string is truthy. -/
def selectorTruthy : Option String → Bool
  | none => false
  | some s => !(s == "")

/-- Number of elements a jQuery query on the stored selector yields
(`$(this.selector).length`): the environment `dom` gives the match count of
a selector string, and both undefined and the empty string select nothing. -/
def queryLength (dom : String → Nat) : Option String → Nat
  | none => 0
  | some s => if s == "" then 0 else dom s

/-- Component.prototype.tryToSetElements: query the selector, store the
matched handle in `this.elements` only when at least one element matched,
and return whether any element matched (`!!elements.length`). -/
def tryToSetElements (dom : String → Nat) : Component → Component × Bool
  | .mk n s g a en el eng p subs =>
    let len := queryLength dom s
    (if 0 < len then .mk n s g a en (some len) eng p subs
     else .mk n s g a en el eng p subs,
     decide (0 < len))

mutual
/-- ComponentEngine.prototype._initComponent: set the engine back-reference,
invoke the init callback, set `enabled = true` and recurse into the
subcomponents in declaration order, activating exactly those whose guard
returns true after writing the parent back-reference onto them.  The
`newParent` argument carries the parent name assigned by the recursive call
site (`subcomponent.parent = component`); the root call leaves the parent
field untouched.  The returned trace lists the init callbacks invoked, in
order. -/
def initComponentRec (newParent : Option String) : Component → Component × List Ev
  | .mk n s g a _en el _eng p subs =>
    let sr := initSubsRec n subs
    (.mk n s g a true el true (match newParent with | none => p | some q => some q) sr.1,
     Ev.initCb n :: sr.2)

/-- Child loop of `_initComponent`: walk the subcomponents in order; a child
whose guard returns true gets its parent back-reference set and is
recursively initialized, a child whose guard returns false is left as it is.
The selector of a child is never consulted here. -/
def initSubsRec (parentName : String) : List Component → List Component × List Ev
  | [] => ([], [])
  | s :: rest =>
    let tail := initSubsRec parentName rest
    if s.guardB then
      let r := initComponentRec (some parentName) s
      (r.1 :: tail.1, r.2 ++ tail.2)
    else
      (s :: tail.1, tail.2)
end

/-- One step of the component loop in ComponentEngine.prototype.init:
`(component.selector ? component.tryToSetElements() : true) &&
component.guard(this)` decides whether `_initComponent` runs.  Note that
`tryToSetElements` runs, and may store `this.elements`, before the guard is
evaluated. -/
def initStep (dom : String → Nat) (p : String × Component) :
    (String × Component) × List Ev :=
  let r := if selectorTruthy p.2.selector then tryToSetElements dom p.2 else (p.2, true)
  if r.2 && r.1.guardB then
    let ir := initComponentRec none r.1
    ((p.1, ir.1), ir.2)
  else
    ((p.1, r.1), [])

/-- The component loop of `init`, over the insertion-ordered component map. -/
def initPass (dom : String → Nat) :
    List (String × Component) → List (String × Component) × List Ev
  | [] => ([], [])
  | p :: rest =>
    let r := initStep dom p
    let t := initPass dom rest
    (r.1 :: t.1, r.2 ++ t.2)

/-- ComponentEngine.prototype.dispatchEvent: when initialized, invoke every
listener registered for the event in order, passing the data; otherwise
append the event to `deferredEvents` and invoke nothing. -/
def Engine.dispatchEvent (e : Engine) (ev : String) (d : Nat) : Engine × List Ev :=
  if e.initialized then
    match e.eventListeners.lookup ev with
    | some ls => (e, ls.map (fun l => Ev.listen l.lid d))
    | none => (e, [])
  else
    ({ e with deferredEvents := e.deferredEvents ++ [(ev, d)] }, [])

/-- The deferred-event loop of `init`: each queued event goes through the
normal `dispatchEvent` path.  The engine argument is the state right after
`initialized` was set to true; `dispatchEvent` leaves an initialized engine
unchanged (lemma `dispatchEvent_initialized_fst`), so iterating with a fixed
engine agrees with the JS loop over the live object. -/
def drainPass (e : Engine) : List (String × Nat) → List Ev
  | [] => []
  | ed :: rest => (e.dispatchEvent ed.1 ed.2).2 ++ drainPass e rest

/-- ComponentEngine.prototype.init: run the component loop, set
`initialized = true`, replay the deferred events through `dispatchEvent` in
FIFO order, then clear the queue (`this.deferredEvents.length = 0`).  The
installation of the jQuery click/change delegates on the document body is a
DOM side effect outside the model. -/
def Engine.initRun (dom : String → Nat) (e : Engine) : Engine × List Ev :=
  let p := initPass dom e.components
  let e1 : Engine := { e with components := p.1, initialized := true }
  let tr := drainPass e1 e1.deferredEvents
  ({ e1 with deferredEvents := [] }, p.2 ++ tr)

/-- ComponentEngine.prototype.addComponent: reject (log and return) when a
component of the same name exists; otherwise, when the engine is already
initialized and the guard passes, run `_initComponent` — the selector is not
consulted on this path — and finally store the component under its name. -/
def Engine.addComponent (e : Engine) (c : Component) : Engine × List Ev :=
  match e.components.lookup c.name with
  | some _ => (e, [])
  | none =>
    if e.initialized && c.guardB then
      let r := initComponentRec none c
      ({ e with components := e.components ++ [(c.name, r.1)] }, r.2)
    else
      ({ e with components := e.components ++ [(c.name, c)] }, [])

/-- ComponentEngine.prototype.getComponent, resolved to a name: a component
argument is reduced to `component.name` by the source, so both spellings
read the same map entry. -/
def Engine.getComponent (e : Engine) (nm : String) : Option Component :=
  e.components.lookup nm

/-- Replace the value stored under a key of an insertion-ordered object,
keeping the insertion order (in JS the update mutates the stored object in
place). -/
def updateAssoc {β : Type} (m : List (String × β)) (k : String) (v : β) :
    List (String × β) :=
  m.map (fun p => if k == p.1 then (p.1, v) else p)

def setEnabled : Component → Bool → Component
  | .mk n s g a _en el eng p subs, b => .mk n s g a b el eng p subs

def clearEngineRef : Component → Component
  | .mk n s g a en el _eng p subs => .mk n s g a en el false p subs

/-- The listener purge loop of ComponentEngine.prototype.disableComponent:
`for (i = 0; i < listeners.length; i++) if (listeners[i].component ===
component) listeners.splice(i, 1)`.  Splicing inside the forward loop shifts
the next element into position `i`, and the following `i++` skips it, so the
element after a removed one is kept unexamined. -/
def spliceScan (nm : String) : List Listener → List Listener
  | [] => []
  | [x] => if x.comp == some nm then [] else [x]
  | x :: y :: rest =>
    if x.comp == some nm then
      y :: spliceScan nm rest
    else
      x :: spliceScan nm (y :: rest)

/-- ComponentEngine.prototype.disableComponent: when the resolved component
is enabled, invoke its remove callback, set `enabled = false`, and run the
purge loop over every event listener list; `none` models the TypeError a JS
caller gets for an unknown name, so the operation never completes there. -/
def Engine.disableComponent (e : Engine) (nm : String) : Option (Engine × List Ev) :=
  match e.components.lookup nm with
  | none => none
  | some c =>
    if c.enabled then
      some ({ e with
              components := updateAssoc e.components nm (setEnabled c false),
              eventListeners := e.eventListeners.map (fun p => (p.1, spliceScan nm p.2)) },
            [Ev.removeCb nm])
    else
      some (e, [])

/-- The property key JS derives from a Component object in
`delete this.components[component]`: `String(component)` with the default
`Object.prototype.toString`, independent of the component. -/
def componentKeyString : String := "[object Object]"

/-- ComponentEngine.prototype.removeComponent: resolve the component,
disable it, clear its engine back-reference (mutating the object still held
by the map), then execute `delete this.components[component]` — the delete
key is the string coercion of the component object, not its name. -/
def Engine.removeComponent (e : Engine) (nm : String) : Option (Engine × List Ev) :=
  match e.disableComponent nm with
  | none => none
  | some (e1, tr) =>
    let e2 : Engine :=
      { e1 with components :=
          e1.components.map (fun p => if p.1 == nm then (p.1, clearEngineRef p.2) else p) }
    some ({ e2 with components :=
              e2.components.filter (fun p => !(p.1 == componentKeyString)) }, tr)

/-- ComponentEngine.prototype.enableComponent: when the resolved component
is not enabled, run `_initComponent` for it alone (no selector resolution on
this path either). -/
def Engine.enableComponent (e : Engine) (nm : String) : Option (Engine × List Ev) :=
  match e.components.lookup nm with
  | none => none
  | some c =>
    if c.enabled then some (e, [])
    else
      let r := initComponentRec none c
      some ({ e with components := updateAssoc e.components nm r.1 }, r.2)

/-- ComponentEngine.prototype.addEventListener:
`listeners[event] = listeners[event] || []; listeners[event].push(listener)`. -/
def Engine.addEventListener (e : Engine) (ev : String) (l : Listener) : Engine :=
  match e.eventListeners.lookup ev with
  | some ls => { e with eventListeners := updateAssoc e.eventListeners ev (ls ++ [l]) }
  | none => { e with eventListeners := e.eventListeners ++ [(ev, [l])] }

/-- Component.prototype.addEventListener: write the owning component onto
the callback (`listener.component = this`) and delegate to the engine. -/
def componentAddEventListener (e : Engine) (nm : String) (ev : String) (lid : Nat) :
    Engine :=
  e.addEventListener ev ⟨lid, some nm⟩

/-- Array.prototype.indexOf under strict equality: the index of the first
occurrence, or -1 when absent. -/
def jsIndexOf (l : Listener) : List Listener → Int
  | [] => -1
  | x :: rest =>
    if x = l then 0
    else
      let r := jsIndexOf l rest
      if r = -1 then -1 else r + 1

/-- Array.prototype.splice(start, 1): a negative start counts from the end
(clamped at 0), a start beyond the length removes nothing; exactly one
element at the actual start is removed otherwise. -/
def jsSplice1 {α : Type} (ls : List α) (start : Int) : List α :=
  let s : Nat := if start < 0 then ((ls.length : Int) + start).toNat
                 else min start.toNat ls.length
  ls.take s ++ ls.drop (s + 1)

/-- ComponentEngine.prototype.removeEventListener: return when the event has
no listener array, otherwise `listeners.splice(listeners.indexOf(listener),
1)` — when the listener is absent, indexOf yields -1 and the splice removes
the last element. -/
def Engine.removeEventListener (e : Engine) (ev : String) (l : Listener) : Engine :=
  match e.eventListeners.lookup ev with
  | none => e
  | some ls =>
    { e with eventListeners :=
        updateAssoc e.eventListeners ev (jsSplice1 ls (jsIndexOf l ls)) }

/-- Component.prototype.addAction: `this.actions[name] = this.actions[name]
|| []; this.actions[name].push(callback)`. -/
def addAction (acts : List (String × List Nat)) (aname : String) (cb : Nat) :
    List (String × List Nat) :=
  match acts.lookup aname with
  | none => acts ++ [(aname, [cb])]
  | some l => updateAssoc acts aname (l ++ [cb])

/-- The bound of the callback loop in Component.prototype.executeAction:
`for (var i = 0; i < this.actions.length; i++)`.  `this.actions` is the
plain object holding the action lists, so `.length` is an ordinary property
lookup of the key "length"; `addAction` only ever stores arrays of callbacks
under action names, so the value is undefined (no such key) or an array of
functions.  The loop guard `i < undefined` is false for every `i`, and an
array of functions coerces to NaN, for which `i < NaN` is also false: the
loop never executes an iteration, so the bound behaves as 0. -/
def actionsLengthAsBound (acts : List (String × List Nat)) : Nat :=
  match acts.lookup ("length") with
  | none => 0
  | some _ => 0

mutual
/-- Component.prototype.executeAction: when `this.actions` has an own
property for the action name — always an array when it was registered via
`addAction`, so the `Array.isArray` branch is taken — run the callback loop
(whose bound is `actionsLengthAsBound`, see there), applying
`this.actions[name][i]` with the element as receiver and the component as
argument; then recurse into every subcomponent in declaration order.  The
trace pairs each invoked callback identifier with the name of the component
it was registered on. -/
def executeActionCalls (aname : String) : Component → List (Nat × String)
  | .mk nm _ _ acts _ _ _ _ subs =>
    let own := match acts.lookup aname with
               | none => []
               | some cbs =>
                 (cbs.take (actionsLengthAsBound acts)).map (fun cb => (cb, nm))
    own ++ executeActionSubs aname subs

/-- The subcomponent loop of `executeAction`. -/
def executeActionSubs (aname : String) : List Component → List (Nat × String)
  | [] => []
  | s :: rest => executeActionCalls aname s ++ executeActionSubs aname rest
end

/-- Selector check of the activation pass as a boolean: the value of
`(component.selector ? component.tryToSetElements() : true)`. -/
def selectorPass (dom : String → Nat) (c : Component) : Bool :=
  if selectorTruthy c.selector then decide (0 < queryLength dom c.selector) else true

/-- One direction of the boundElement invariant claimed by the spec: the
matched-element set is present only while the component is enabled. -/
def elementsOnlyWhenEnabled (c : Component) : Bool :=
  !c.elements.isSome || c.enabled

/-! Alternate engine variant: the `Application` and its `Component`
(the second constructor of that name in the source).  Children and actions
play no role in the claims about this variant, so a component carries its
name, selector, guard value, the `this.element` handle set by `_prepare`
(recorded as the match count, present even when zero elements matched), and
the engine and parent back-references. -/

structure AppComponent where
  name : String
  selector : Option String
  guardB : Bool
  element : Option Nat
  engineSet : Bool
  parentSet : Bool
deriving DecidableEq, Repr

structure Application where
  components : List AppComponent
  uninitComponents : List AppComponent
  inactiveComponents : List AppComponent
  initialized : Bool
deriving DecidableEq, Repr

/-- Message of the error `_prepare` throws when the selector is missing. -/
def prepareErrorMsg (c : AppComponent) : String :=
  "A selector is not provided for the " ++ c.name ++ " component."

/-- Component.prototype._prepare of the Application variant: throw when
`!this.selector` (undefined or empty string), otherwise set `this.element =
$(this.selector)` — the handle exists even when it matched zero elements —
and the engine and parent back-references. -/
def appPrepare (dom : String → Nat) (c : AppComponent) : Except String AppComponent :=
  if selectorTruthy c.selector then
    Except.ok { c with element := some (queryLength dom c.selector),
                       engineSet := true, parentSet := true }
  else
    Except.error (prepareErrorMsg c)

/-- Length of the element handle read by `this.element.length`; `_prepare`
always runs first on the paths that read it, so the handle is present. -/
def elementLength (c : AppComponent) : Nat :=
  match c.element with
  | some n => n
  | none => 0

/-- Component.prototype._shouldInitialize: `this.guard() &&
this.element.length`, used for its truthiness. -/
def shouldInit (c : AppComponent) : Bool :=
  c.guardB && decide (0 < elementLength c)

/-- Component.prototype._reset: clear the state bag, the element handle and
the back-references. -/
def appReset (c : AppComponent) : AppComponent :=
  { c with element := none, engineSet := false, parentSet := false }

/-- The loop of Application.prototype.init over `uninitComponents`: prepare
each component — an uncaught throw aborts the whole call — then either
initialize it into `components` or reset it into `inactiveComponents`. -/
def appInitLoop (dom : String → Nat) :
    List AppComponent → Application → Except String Application
  | [], app => Except.ok app
  | c :: rest, app =>
    match appPrepare dom c with
    | Except.error m => Except.error m
    | Except.ok c2 =>
      if shouldInit c2 then
        appInitLoop dom rest { app with components := app.components ++ [c2] }
      else
        appInitLoop dom rest
          { app with inactiveComponents := app.inactiveComponents ++ [appReset c2] }

/-- Application.prototype.init: run the loop over the queued components and
clear `uninitComponents` (the source clears it at the end; the result is the
same on the non-throwing path, and a throw aborts the call). -/
def appInitRun (dom : String → Nat) (app : Application) : Except String Application :=
  appInitLoop dom app.uninitComponents { app with uninitComponents := [] }

/-- Application.prototype.addComponent: when initialized, prepare (a missing
selector throws out of the call) and either initialize the component into
`components` or merely reset it (the inactive list is not extended on this
path); when not initialized, queue it. -/
def appAddComponent (dom : String → Nat) (app : Application) (c : AppComponent) :
    Except String Application :=
  if app.initialized then
    match appPrepare dom c with
    | Except.error m => Except.error m
    | Except.ok c2 =>
      if shouldInit c2 then Except.ok { app with components := app.components ++ [c2] }
      else Except.ok app
  else
    Except.ok { app with uninitComponents := app.uninitComponents ++ [c] }

/-! Concrete instances used by the per-claim theorems. -/

/-- C1 instance: child component B with one callback (identifier 2)
registered under the action name save via addAction. -/
def c1compB : Component :=
  .mk ("B") none true (addAction [] ("save") 2) false none false none []

/-- C1 instance: root component A with one callback (identifier 1)
registered under save via addAction, and child B. -/
def c1compA : Component :=
  .mk ("A") none true (addAction [] ("save") 1) false none false none [c1compB]

/-- C2 instance: a DOM in which the selector .x matches one element. -/
def c2dom : String → Nat := fun s => if s == (".x") then 1 else 0

/-- C2 instance: a component with selector .x and a guard returning false. -/
def c2comp : Component := .mk ("a") (some (".x")) false [] false none false none []

def c2engine : Engine := ⟨[("a", c2comp)], [], false, []⟩

/-- C2 instance: the component stored under its name after the init pass. -/
def c2after : Option Component := (c2engine.initRun c2dom).1.getComponent ("a")

/-- C2 witness instance: a guard-true component with selector .x. -/
def c2wcomp : Component := .mk ("w") (some (".x")) true [] false none false none []

/-- C3 instance: an enabled component named a on an initialized engine. -/
def c3comp : Component := .mk ("a") none true [] true none true none []

def c3engine : Engine := ⟨[("a", c3comp)], [], true, []⟩

/-- C4 instance: enabled components c and d; the event e has two adjacent
listeners tagged with c (identifiers 1 and 2) followed by a listener of d
(identifier 3). -/
def c4comp : Component := .mk ("c") none true [] true none true none []

def c4other : Component := .mk ("d") none true [] true none true none []

def c4engine : Engine :=
  ⟨[("c", c4comp), ("d", c4other)],
   [("e", [⟨1, some ("c")⟩, ⟨2, some ("c")⟩, ⟨3, some ("d")⟩])],
   true, []⟩

/-- C5 scenario: an uninitialized engine with no components. -/
def c5e0 : Engine := ⟨[], [], false, []⟩

/-- C5 scenario: after dispatching the event ready with data 1 before init. -/
def c5e1 : Engine := (c5e0.dispatchEvent ("ready") 1).1

/-- C5 scenario: after then registering listener 7 for ready. -/
def c5e2 : Engine := c5e1.addEventListener ("ready") ⟨7, none⟩

/-- C5 scenario: the state and trace produced by init. -/
def c5res : Engine × List Ev := c5e2.initRun (fun _ => 0)

/-- C6 instance: a DOM in which no selector matches any element. -/
def c6dom : String → Nat := fun _ => 0

/-- C6 instance: a guard-true component whose selector matches nothing. -/
def c6comp : Component := .mk ("n") (some (".nope")) true [] false none false none []

/-- C6 instance: an already initialized engine with no components. -/
def c6engine : Engine := ⟨[], [], true, []⟩

/-- C7 instance: a guard-true child whose selector matches zero elements. -/
def c7child : Component := .mk ("ch") (some (".nope")) true [] false none false none []

/-- C7 instance: a guard-true root with no selector and child c7child. -/
def c7root : Component := .mk ("rt") none true [] false none false none [c7child]

def c7dom : String → Nat := fun _ => 0

def c7engine : Engine := ⟨[("rt", c7root)], [], false, []⟩

/-- C8 witness instance: a component registered under the name a. -/
def c8comp : Component := .mk ("a") none true [] false none false none []

def c8engine : Engine := ⟨[("a", c8comp)], [], false, []⟩

/-- C8 witness instance: a second, distinct component also named a. -/
def c8dup : Component := .mk ("a") (some (".q")) false [] false none false none []

/-- C9 witness instance: a queued component with no selector. -/
def c9comp : AppComponent := ⟨"x", none, true, none, false, false⟩

def c9app : Application := ⟨[], [c9comp], [], false⟩

def c9dom : String → Nat := fun _ => 0

/-- C10 witness instance: event e has the single listener 1; listener 2 is
not registered anywhere. -/
def c10l1 : Listener := ⟨1, none⟩

def c10l2 : Listener := ⟨2, none⟩

def c10engine : Engine := ⟨[], [("e", [c10l1])], true, []⟩

/-- C5 witness instance: a fresh uninitialized engine. -/
def c5wengine : Engine := ⟨[], [], false, []⟩

/-! Helper lemmas about the embedded operations. -/

theorem queryLength_of_not_truthy (dom : String → Nat) (sel : Option String)
    (h : selectorTruthy sel = false) : queryLength dom sel = 0 := by
  cases sel with
  | none => rfl
  | some s =>
    simp only [selectorTruthy, Bool.not_eq_false'] at h
    simp [queryLength, h]

theorem tryToSetElements_elements (dom : String → Nat) (c : Component) :
    ((tryToSetElements dom c).1).elements =
      if 0 < queryLength dom c.selector then some (queryLength dom c.selector)
      else c.elements := by
  cases c with
  | mk n s g a en el eng p subs =>
    by_cases h : 0 < queryLength dom s <;>
      simp [tryToSetElements, Component.selector, Component.elements, h]

theorem tryToSetElements_snd (dom : String → Nat) (c : Component) :
    (tryToSetElements dom c).2 = decide (0 < queryLength dom c.selector) := by
  cases c
  simp [tryToSetElements, Component.selector]

theorem tryToSetElements_guardB (dom : String → Nat) (c : Component) :
    ((tryToSetElements dom c).1).guardB = c.guardB := by
  cases c with
  | mk n s g a en el eng p subs =>
    by_cases h : 0 < queryLength dom s <;> simp [tryToSetElements, Component.guardB, h]

theorem tryToSetElements_enabled (dom : String → Nat) (c : Component) :
    ((tryToSetElements dom c).1).enabled = c.enabled := by
  cases c with
  | mk n s g a en el eng p subs =>
    by_cases h : 0 < queryLength dom s <;> simp [tryToSetElements, Component.enabled, h]

theorem tryToSetElements_name (dom : String → Nat) (c : Component) :
    ((tryToSetElements dom c).1).name = c.name := by
  cases c with
  | mk n s g a en el eng p subs =>
    by_cases h : 0 < queryLength dom s <;> simp [tryToSetElements, Component.name, h]

theorem tryToSetElements_selector (dom : String → Nat) (c : Component) :
    ((tryToSetElements dom c).1).selector = c.selector := by
  cases c with
  | mk n s g a en el eng p subs =>
    by_cases h : 0 < queryLength dom s <;> simp [tryToSetElements, Component.selector, h]

theorem initComponentRec_enabled (p : Option String) (c : Component) :
    (initComponentRec p c).1.enabled = true := by
  cases c
  simp [initComponentRec, Component.enabled]

theorem initComponentRec_engineSet (p : Option String) (c : Component) :
    (initComponentRec p c).1.engineSet = true := by
  cases c
  simp [initComponentRec, Component.engineSet]

theorem initComponentRec_elements (p : Option String) (c : Component) :
    (initComponentRec p c).1.elements = c.elements := by
  cases c
  simp [initComponentRec, Component.elements]

theorem initComponentRec_name (p : Option String) (c : Component) :
    (initComponentRec p c).1.name = c.name := by
  cases c
  simp [initComponentRec, Component.name]

theorem initComponentRec_parent_some (q : String) (c : Component) :
    (initComponentRec (some q) c).1.parent = some q := by
  cases c
  simp [initComponentRec, Component.parent]

theorem initComponentRec_trace (p : Option String) (c : Component) :
    (initComponentRec p c).2
      = Ev.initCb c.name :: (initSubsRec c.name c.subcomponents).2 := by
  cases c
  simp [initComponentRec, Component.name, Component.subcomponents]

theorem initComponentRec_subcomponents (p : Option String) (c : Component) :
    (initComponentRec p c).1.subcomponents = (initSubsRec c.name c.subcomponents).1 := by
  cases c
  simp [initComponentRec, Component.name, Component.subcomponents]

theorem initSubsRec_fst (pn : String) (l : List Component) :
    (initSubsRec pn l).1
      = l.map (fun t => if t.guardB then (initComponentRec (some pn) t).1 else t) := by
  induction l with
  | nil => rfl
  | cons a rest ih => cases h : a.guardB <;> simp [initSubsRec, h, ih]

theorem dispatchEvent_initialized_fst (e : Engine) (ev : String) (d : Nat)
    (h : e.initialized = true) : (e.dispatchEvent ev d).1 = e := by
  unfold Engine.dispatchEvent
  rw [h]
  cases e.eventListeners.lookup ev <;> simp

theorem lookup_append_of_none {β : Type} (l1 l2 : List (String × β)) (k : String)
    (h : l1.lookup k = none) : (l1 ++ l2).lookup k = l2.lookup k := by
  induction l1 with
  | nil => rfl
  | cons a rest ih =>
    cases hk : (k == a.1) with
    | true =>
      exfalso
      have h2 : (a :: rest).lookup k = some a.2 := by simp [List.lookup, hk]
      rw [h] at h2
      exact Option.noConfusion h2
    | false =>
      have h' : rest.lookup k = none := by simpa [List.lookup, hk] using h
      have hstep : ((a :: rest) ++ l2).lookup k = (rest ++ l2).lookup k := by
        simp [List.lookup, hk]
      rw [hstep, ih h']

theorem lookup_updateAssoc {β : Type} (m : List (String × β)) (k : String) (v w : β)
    (h : m.lookup k = some w) : (updateAssoc m k v).lookup k = some v := by
  induction m with
  | nil => simp [List.lookup] at h
  | cons a rest ih =>
    cases hk : (k == a.1) with
    | true =>
      have hk2 : k = a.1 := by simpa using hk
      have hu : updateAssoc (a :: rest) k v = (a.1, v) :: updateAssoc rest k v := by
        simp [updateAssoc, hk2]
      rw [hu]
      simp [List.lookup, hk]
    | false =>
      have hk2 : ¬ k = a.1 := by simpa using hk
      have hu : updateAssoc (a :: rest) k v = a :: updateAssoc rest k v := by
        simp [updateAssoc, hk2]
      have h' : rest.lookup k = some w := by simpa [List.lookup, hk] using h
      rw [hu]
      simpa [List.lookup, hk] using ih h'

theorem jsIndexOf_not_mem (l : Listener) (ls : List Listener) (h : l ∉ ls) :
    jsIndexOf l ls = -1 := by
  induction ls with
  | nil => rfl
  | cons a rest ih =>
    have h1 : ¬(a = l) := fun he => h (List.mem_cons.mpr (Or.inl he.symm))
    have h2 : l ∉ rest := fun hm => h (List.mem_cons.mpr (Or.inr hm))
    simp [jsIndexOf, h1, ih h2]

theorem jsSplice1_neg_one {α : Type} (ls : List α) :
    jsSplice1 ls (-1) = ls.dropLast := by
  unfold jsSplice1
  simp only [if_pos (by omega : (-1 : Int) < 0)]
  have hs : (((ls.length : Int)) + (-1)).toNat = ls.length - 1 := by omega
  rw [hs, List.dropLast_eq_take]
  cases ls with
  | nil => rfl
  | cons a rest =>
    have : (a :: rest).length - 1 + 1 = (a :: rest).length := by simp
    rw [this, List.drop_length, List.append_nil]

/-! Per-claim theorems. -/

/-- C1: the claim states that executeAction invokes every callback
registered under the action name via addAction.  The code does not: the
callback loop is bounded by the length property of the plain actions object
(see actionsLengthAsBound), so no callback ever runs.  This theorem
evaluates the claimed scenario — root A and child B each with one callback
registered under save — and shows that the callbacks are registered yet the
set of invocations is empty, while the claim demands one invocation on A and
one on B. -/
theorem claim1_exec :
    (c1compA.actions.lookup ("save")).isSome = true ∧
    (c1compA.subcomponents.map (fun b => (b.actions.lookup ("save")).isSome)) = [true] ∧
    executeActionCalls ("save") c1compA = [] :=
  ⟨rfl, rfl, rfl⟩

/-- C3: the claim states that after removeComponent(C), get(C.name) returns
undefined.  The code executes delete this.components[component] with the
component object as the key, which coerces to the constant string
componentKeyString, so the entry under the real name survives.  Here the
engine holds a single enabled component named a; after removeComponent it is
disabled and its engine back-reference is cleared, but the mapping still has
one entry and getComponent still returns the component. -/
theorem claim3_exec :
    (c3engine.removeComponent ("a")).map (fun r =>
        ((r.1.getComponent ("a")).map Component.enabled,
         (r.1.getComponent ("a")).map Component.engineSet,
         r.1.components.length))
      = some (some false, some false, 1) :=
  rfl

/-- C4: the claim states that disable purges every listener tagged with the
component, for every arrangement including two adjacent listeners.  The
purge loop splices while iterating forward, skipping the element after each
removal, so of the two adjacent listeners of component c (identifiers 1 and
2) for event e, listener 2 survives, and a subsequent dispatch of e still
invokes it alongside the other component's listener 3. -/
theorem claim4_exec :
    (c4engine.disableComponent ("c")).map (fun r =>
        ((r.1.dispatchEvent ("e") 9).2, r.1.eventListeners.lookup ("e")))
      = some ([Ev.listen 2 9, Ev.listen 3 9], some [⟨2, some ("c")⟩, ⟨3, some ("d")⟩]) :=
  rfl

/-- C6 counterexample: the claim states that a component registered after
init() whose selector matches zero elements stays inactive even when its
guard returns true.  On an initialized engine, addComponent activates
c6comp, whose selector .nope matches zero elements under c6dom and whose
guard returns true: its enabled flag becomes true, refuting the claim. -/
theorem claim6_counterexample :
    c6dom (".nope") = 0 ∧ c6comp.guardB = true ∧
    ((c6engine.addComponent c6comp).1.getComponent ("n")).map Component.enabled
      = some true :=
  ⟨rfl, rfl, rfl⟩

/-- C6 amended: if the engine is already initialized, addComponent with a
not-yet-used name immediately activates the component whenever its guard
returns true; the selector is not resolved on this path (tryToSetElements is
not called, the elements field is untouched), so a component whose selector
matches zero elements is activated all the same. -/
theorem claim6_amended (e : Engine) (c : Component)
    (hfresh : e.components.lookup c.name = none) (hinit : e.initialized = true)
    (hg : c.guardB = true) :
    ((e.addComponent c).1.getComponent c.name).map Component.enabled = some true ∧
    ((e.addComponent c).1.getComponent c.name).map Component.elements = some c.elements := by
  have hlook : ((e.components ++ [(c.name, (initComponentRec none c).1)]).lookup c.name)
      = some (initComponentRec none c).1 := by
    rw [lookup_append_of_none _ _ _ hfresh]
    simp [List.lookup]
  constructor <;>
    simp [Engine.addComponent, Engine.getComponent, hfresh, hinit, hg, hlook,
      initComponentRec_enabled, initComponentRec_elements]

/-- C6 witness: the amended theorem applied to the concrete initialized
engine and the concrete zero-match component. -/
theorem claim6_witness :
    ((c6engine.addComponent c6comp).1.getComponent c6comp.name).map Component.enabled
      = some true :=
  (claim6_amended c6engine c6comp rfl rfl rfl).1

/-- C8: registering a component whose name is already taken is rejected: the
engine state is returned unchanged, no callback runs, and getComponent still
returns the previously stored component. -/
theorem claim8 (e : Engine) (c c0 : Component)
    (h : e.components.lookup c.name = some c0) :
    (e.addComponent c).1 = e ∧ (e.addComponent c).2 = [] ∧
    (e.addComponent c).1.getComponent c.name = some c0 := by
  refine ⟨?_, ?_, ?_⟩ <;> simp [Engine.addComponent, Engine.getComponent, h]

/-- C8 witness: the rejection theorem applied to a concrete engine holding a
component named a and a distinct second component with the same name. -/
theorem claim8_witness :
    (c8engine.addComponent c8dup).1 = c8engine ∧
    (c8engine.addComponent c8dup).2 = [] ∧
    (c8engine.addComponent c8dup).1.getComponent c8dup.name = some c8comp :=
  claim8 c8engine c8dup c8comp rfl

/-- C10: when the event has a listener array and the listener passed to
removeEventListener is not in it, indexOf yields -1 and splice(-1, 1)
deletes the final element, so the stored array becomes the original without
its last element; when the event has no listener array at all, the engine is
returned unchanged. -/
theorem claim10 (e : Engine) (ev : String) (l : Listener) (ls : List Listener) :
    (e.eventListeners.lookup ev = some ls → ls ≠ [] → l ∉ ls →
       (e.removeEventListener ev l).eventListeners.lookup ev = some ls.dropLast) ∧
    (e.eventListeners.lookup ev = none → e.removeEventListener ev l = e) := by
  constructor
  · intro h1 _h2 h3
    have hred : (e.removeEventListener ev l).eventListeners
        = updateAssoc e.eventListeners ev (jsSplice1 ls (jsIndexOf l ls)) := by
      unfold Engine.removeEventListener
      rw [h1]
    rw [hred, jsIndexOf_not_mem l ls h3, jsSplice1_neg_one]
    exact lookup_updateAssoc e.eventListeners ev ls.dropLast ls h1
  · intro h
    unfold Engine.removeEventListener
    rw [h]

/-- C10 witness: removing an unregistered listener from the one-element
array of event e deletes that element; removing from the unknown event q is
a no-op. -/
theorem claim10_witness :
    (c10engine.removeEventListener ("e") c10l2).eventListeners.lookup ("e")
      = some ([c10l1].dropLast) ∧
    c10engine.removeEventListener ("q") c10l2 = c10engine :=
  ⟨(claim10 c10engine ("e") c10l2 [c10l1]).1 rfl (by decide) (by decide),
   (claim10 c10engine ("q") c10l2 []).2 rfl⟩

theorem setEnabled_elements (c : Component) (b : Bool) :
    (setEnabled c b).elements = c.elements := by
  cases c
  rfl

/-- Disabling a component never clears its stored matched-element handle:
only the enabled flag and the listener lists change. -/
theorem disableComponent_preserves_elements (e2 : Engine) (nm : String) :
    (match e2.disableComponent nm with
     | none => True
     | some r => Option.map Component.elements (r.1.getComponent nm)
                   = Option.map Component.elements (e2.getComponent nm)) := by
  cases hl : e2.components.lookup nm with
  | none => simp [Engine.disableComponent, hl]
  | some c0 =>
    by_cases hen : c0.enabled = true
    · have hd : e2.disableComponent nm
          = some ({ e2 with
                    components := updateAssoc e2.components nm (setEnabled c0 false),
                    eventListeners := e2.eventListeners.map (fun p => (p.1, spliceScan nm p.2)) },
                  [Ev.removeCb nm]) := by
        simp [Engine.disableComponent, hl, hen]
      rw [hd]
      have hlook : (updateAssoc e2.components nm (setEnabled c0 false)).lookup nm
          = some (setEnabled c0 false) :=
        lookup_updateAssoc e2.components nm (setEnabled c0 false) c0 hl
      simp [Engine.getComponent, hlook, hl, setEnabled_elements]
    · have hd : e2.disableComponent nm = some (e2, []) := by
        simp [Engine.disableComponent, hl, hen]
      rw [hd]

theorem initStep_key (dom : String → Nat) (p : String × Component) :
    (initStep dom p).1.1 = p.1 := by
  simp only [initStep]
  split <;> split <;> rfl

theorem initStep_elements (dom : String → Nat) (p : String × Component)
    (hel : p.2.elements = none) :
    (initStep dom p).1.2.elements
      = if 0 < queryLength dom p.2.selector then some (queryLength dom p.2.selector)
        else none := by
  unfold initStep
  by_cases hst : selectorTruthy p.2.selector = true
  · by_cases hq : 0 < queryLength dom p.2.selector
    · by_cases hg : (tryToSetElements dom p.2).1.guardB = true
      · simp [hst, tryToSetElements_snd, hq, hg, initComponentRec_elements,
          tryToSetElements_elements]
      · simp [hst, tryToSetElements_snd, hq, hg, tryToSetElements_elements]
    · simp [hst, tryToSetElements_snd, hq, tryToSetElements_elements, hel]
  · have h0 : queryLength dom p.2.selector = 0 :=
      queryLength_of_not_truthy dom p.2.selector (by simpa using hst)
    by_cases hg : p.2.guardB = true <;>
      simp [hst, hg, h0, initComponentRec_elements, hel]

theorem initStep_enabled (dom : String → Nat) (p : String × Component)
    (hen : p.2.enabled = false) :
    (initStep dom p).1.2.enabled = (selectorPass dom p.2 && p.2.guardB) := by
  unfold initStep
  by_cases hst : selectorTruthy p.2.selector = true
  · by_cases hq : 0 < queryLength dom p.2.selector
    · by_cases hg : p.2.guardB = true
      · have hg2 : (tryToSetElements dom p.2).1.guardB = true := by
          rw [tryToSetElements_guardB]
          exact hg
        simp [hst, tryToSetElements_snd, hq, hg, hg2, initComponentRec_enabled,
          selectorPass]
      · have hg2 : (tryToSetElements dom p.2).1.guardB = false := by
          rw [tryToSetElements_guardB]
          simpa using hg
        simp [hst, tryToSetElements_snd, hq, hg2, tryToSetElements_enabled, hen,
          selectorPass, hg]
    · simp [hst, tryToSetElements_snd, hq, tryToSetElements_enabled, hen, selectorPass]
  · have hst2 : selectorTruthy p.2.selector = false := by simpa using hst
    by_cases hg : p.2.guardB = true <;>
      simp [hst2, hg, initComponentRec_enabled, hen, selectorPass]

/-- C2 counterexample: the claim states that elements is set iff the
component is enabled and its selector (if any) matched at last activation.
After the init pass on an engine holding the single component c2comp —
selector .x matching one element under c2dom, guard returning false — the
stored component has elements set to some 1 while enabled is false, because
tryToSetElements runs and stores the match before the guard is evaluated;
this violates the only-if direction of the claimed invariant
(elementsOnlyWhenEnabled is false on it). -/
theorem claim2_counterexample :
    Option.map elementsOnlyWhenEnabled c2after = some false ∧
    Option.map Component.elements c2after = some (some 1) ∧
    Option.map Component.enabled c2after = some false :=
  ⟨rfl, rfl, rfl⟩

/-- C2 amended: the stored matched-element set tracks only the selector
match, independently of the guard and of the enabled flag.  After the init
pass over a single fresh component, elements is set iff the declared
selector matched at least one element (even when the guard failed and the
component stays disabled), enabled is the conjunction of the selector check
and the guard, and disableComponent never clears elements. -/
theorem claim2_amended (dom : String → Nat) (c : Component)
    (hel : c.elements = none) (hen : c.enabled = false)
    (ls : List (String × List Listener)) (defs : List (String × Nat))
    (e2 : Engine) (nm : String) :
    Option.map Component.elements
        ((Engine.initRun dom (Engine.mk [(c.name, c)] ls false defs)).1.getComponent c.name)
      = some (if 0 < queryLength dom c.selector then some (queryLength dom c.selector)
              else none) ∧
    Option.map Component.enabled
        ((Engine.initRun dom (Engine.mk [(c.name, c)] ls false defs)).1.getComponent c.name)
      = some (selectorPass dom c && c.guardB) ∧
    (match e2.disableComponent nm with
     | none => True
     | some r => Option.map Component.elements (r.1.getComponent nm)
                   = Option.map Component.elements (e2.getComponent nm)) := by
  have hafter : (Engine.initRun dom (Engine.mk [(c.name, c)] ls false defs)).1.getComponent c.name
      = some ((initStep dom (c.name, c)).1.2) := by
    show List.lookup c.name [(initStep dom (c.name, c)).1] = some ((initStep dom (c.name, c)).1.2)
    simp [List.lookup, initStep_key]
  refine ⟨?_, ?_, disableComponent_preserves_elements e2 nm⟩
  · rw [hafter, Option.map_some']
    exact congrArg some (initStep_elements dom (c.name, c) hel)
  · rw [hafter, Option.map_some']
    exact congrArg some (initStep_enabled dom (c.name, c) hen)

/-- C2 witness: the amended theorem at the concrete guard-true component
c2wcomp with selector .x under c2dom. -/
theorem claim2_witness :
    Option.map Component.elements
        ((Engine.initRun c2dom (Engine.mk [(c2wcomp.name, c2wcomp)] [] false [])).1.getComponent
          c2wcomp.name)
      = some (if 0 < queryLength c2dom c2wcomp.selector
              then some (queryLength c2dom c2wcomp.selector) else none) :=
  (claim2_amended c2dom c2wcomp rfl rfl [] [] (Engine.mk [] [] true []) ("zz")).1

/-- C5: an event dispatched while initialized is false is appended to the
deferred queue and delivers nothing; init leaves the queue empty and the
initialized flag true; the trace of init is the component-pass trace
followed by the deferred events replayed through the normal dispatch path,
in FIFO order, against the engine state in which initialized has just been
set; and in the concrete scenario — dispatchEvent ready with data 1 before
init, then registering listener 7 for ready, then init — the listener is
invoked exactly once with the original data. -/
theorem claim5 (e : Engine) (ev : String) (d : Nat) (dom : String → Nat)
    (h : e.initialized = false) :
    e.dispatchEvent ev d
        = ({ e with deferredEvents := e.deferredEvents ++ [(ev, d)] }, []) ∧
    (e.initRun dom).1.deferredEvents = [] ∧
    (e.initRun dom).1.initialized = true ∧
    (e.initRun dom).2
        = (initPass dom e.components).2
          ++ drainPass { e with components := (initPass dom e.components).1,
                                initialized := true } e.deferredEvents ∧
    c5res.2 = [Ev.listen 7 1] ∧
    c5res.1.deferredEvents = [] := by
  refine ⟨?_, rfl, rfl, rfl, rfl, rfl⟩
  simp [Engine.dispatchEvent, h]

/-- C5 witness: the theorem at a fresh uninitialized engine. -/
theorem claim5_witness :
    c5wengine.dispatchEvent ("a") 0
      = ({ c5wengine with deferredEvents := c5wengine.deferredEvents ++ [("a", 0)] }, []) :=
  (claim5 c5wengine ("a") 0 (fun _ => 0) rfl).1

/-- C7 counterexample: the claim states that during recursive activation a
child whose own selector matches zero elements is not activated.  Under
c7dom, where .nope matches zero elements, the init pass on the root rt
still activates the child ch — the child loop of _initComponent checks only
the guard — so the stored root has its single subcomponent enabled. -/
theorem claim7_counterexample :
    c7dom (".nope") = 0 ∧ c7child.guardB = true ∧
    ((c7engine.initRun c7dom).1.getComponent ("rt")).map
        (fun c => c.subcomponents.map Component.enabled) = some [true] :=
  ⟨rfl, rfl, rfl⟩

/-- C7 amended: activation sets the engine back-reference, invokes
init(engine) (first trace entry), marks enabled true and keeps the elements
handle untouched, then processes the children in declaration order; each
child is re-checked only for its guard — its selector is never resolved —
and a guard-true child is activated with its parent back-reference set to
this component and its elements inherited unchanged, even if its selector
matches zero elements. -/
theorem claim7_amended (p : Option String) (c s : Component) (hg : s.guardB = true) :
    (initComponentRec p c).1.enabled = true ∧
    (initComponentRec p c).1.engineSet = true ∧
    (initComponentRec p c).1.elements = c.elements ∧
    (initComponentRec p c).2 = Ev.initCb c.name :: (initSubsRec c.name c.subcomponents).2 ∧
    (initComponentRec p c).1.subcomponents
      = c.subcomponents.map
          (fun t => if t.guardB then (initComponentRec (some c.name) t).1 else t) ∧
    (initComponentRec (some c.name) s).1.parent = some c.name ∧
    (initComponentRec (some c.name) s).1.enabled = true ∧
    (initComponentRec (some c.name) s).1.elements = s.elements := by
  refine ⟨initComponentRec_enabled p c, initComponentRec_engineSet p c,
    initComponentRec_elements p c, initComponentRec_trace p c, ?_,
    initComponentRec_parent_some c.name s, initComponentRec_enabled _ s,
    initComponentRec_elements _ s⟩
  rw [initComponentRec_subcomponents, initSubsRec_fst]

/-- C7 witness: the amended theorem at the concrete root rt and guard-true
child ch. -/
theorem claim7_witness : (initComponentRec none c7root).1.enabled = true :=
  (claim7_amended none c7root c7child rfl).1

/-- C9: in the Application variant, a queued component without a truthy
selector makes init (and addComponent on an initialized application) abort
with the prepare error, while a component whose guard returns false or whose
selector matches zero elements is handled silently: init moves it, reset, to
the inactive list, and addComponent merely resets and drops it. -/
theorem claim9 (dom : String → Nat) (c : AppComponent) (app : Application) (s : String)
    (hq : app.uninitComponents = [c]) :
    (selectorTruthy c.selector = false →
       appInitRun dom app = Except.error (prepareErrorMsg c) ∧
       appAddComponent dom { app with initialized := true } c
         = Except.error (prepareErrorMsg c)) ∧
    (c.selector = some s → (s == "") = false →
       (c.guardB = false ∨ queryLength dom c.selector = 0) →
       appInitRun dom app
         = Except.ok { app with uninitComponents := [],
                                inactiveComponents := app.inactiveComponents ++ [appReset c] } ∧
       appAddComponent dom { app with initialized := true } c
         = Except.ok { app with initialized := true }) := by
  constructor
  · intro h
    constructor
    · unfold appInitRun
      rw [hq]
      simp [appInitLoop, appPrepare, h]
    · simp [appAddComponent, appPrepare, h]
  · intro hs hs2 hor
    have hst : selectorTruthy c.selector = true := by
      simp [hs, selectorTruthy, hs2]
    have hprep : appPrepare dom c
        = Except.ok { c with element := some (queryLength dom c.selector),
                             engineSet := true, parentSet := true } := by
      simp [appPrepare, hst]
    have hsi : shouldInit { c with element := some (queryLength dom c.selector),
                                   engineSet := true, parentSet := true } = false := by
      rcases hor with hgf | hq0
      · simp [shouldInit, hgf]
      · simp [shouldInit, elementLength, hq0]
    constructor
    · unfold appInitRun
      rw [hq]
      simp [appInitLoop, hprep, hsi, appReset]
    · simp [appAddComponent, hprep, hsi]

/-- C9 witness: the theorem at the concrete application whose only queued
component has no selector: init aborts with the prepare error. -/
theorem claim9_witness :
    appInitRun c9dom c9app = Except.error (prepareErrorMsg c9comp) ∧
    appAddComponent c9dom { c9app with initialized := true } c9comp
      = Except.error (prepareErrorMsg c9comp) :=
  (claim9 c9dom c9comp c9app ("y") rfl).1 rfl
